import Mathlib

/-!
Verification of the node-acme repository (an ACME / RFC 8555 client) against
its natural-language specification.

The development shallowly embeds the relevant parts of the source:

* `src/src/client.ts` — retry policy (`canRetry`, `withRetry`), directory
  resolution (`getDirectory`), nonce fetching (`getNonce`) and account
  creation (`createAccount`);
* `src/old/acmeClient.ts` — challenge completion
  (`completeDns01Challenges`, key-authorization computation) and order
  finalization polling (`finalizeOrder`).

Asynchronous, effectful TypeScript is modelled by pure functions over
explicit environments (oracles for HTTP responses, nonce draws, DNS
provider calls), returning traces that record the observable effects
(attempt counts, sleep durations, DNS and notification calls) next to the
`Except` result.  JS string truthiness (`!s` for `undefined`/`null`/`""`)
is modelled by `Option String` together with explicit emptiness tests.
-/

/-! ## HTTP failure data attached to thrown errors

In `src/src/client.ts`, operations wrapped by `withRetry` may throw an
`Error` carrying an optional `response` (with `status` and a readable
body text); `withRetry` consults `error.response`. -/

/-- The part of a `Response` that the retry logic inspects: `status` and
the text of the body (`response.text()`, whose failure is mapped to `''`
by `.catch(() => '')` at line 121, so we store the resulting string). -/
structure ErrResponse where
  status : Nat
  body : String
deriving DecidableEq, Repr

/-- A thrown error: its message and the optional attached HTTP response
(`(error as Error & { response?: Response }).response`, line 114). -/
structure OpError where
  msg : String
  response : Option ErrResponse
deriving DecidableEq, Repr

/-- The retry configuration of `src/src/client.ts` lines 18-23.  Delay
quantities are JS numbers; the source defaults and every configuration
this development reasons about are non-negative integers, for which
multiplication and `Math.min` agree with the natural-number operations,
so delays are embedded as `Nat`. -/
structure RetryConfig where
  initialDelay : Nat
  maxRetries : Nat
  maxDelay : Nat
  backoffFactor : Nat
deriving DecidableEq, Repr

/-- The constructor defaults of `src/src/client.ts` lines 35-41:
initialDelay 1000 ms, maxRetries 5, maxDelay 30000 ms, backoffFactor 2. -/
def defaultRetryConfig : RetryConfig :=
  { initialDelay := 1000, maxRetries := 5, maxDelay := 30000, backoffFactor := 2 }

/-- `prefixMatches needle hay` : `needle` is an initial segment of `hay`
(character-by-character comparison). -/
def prefixMatches : List Char → List Char → Bool
  | [], _ => true
  | _ :: _, [] => false
  | n :: ns, h :: hs => n == h && prefixMatches ns hs

/-- `charListContains needle hay` : `needle` occurs contiguously inside
`hay`; this is JS `String.prototype.includes` on the underlying
characters. -/
def charListContains (needle : List Char) : List Char → Bool
  | [] => needle.isEmpty
  | h :: t => prefixMatches needle (h :: t) || charListContains needle t

/-- ASCII lower-casing of one character, the fragment of JS
`toLowerCase()` exercised by header names and ACME problem documents. -/
def lowerChar (c : Char) : Char :=
  if 'A' ≤ c ∧ c ≤ 'Z' then Char.ofNat (c.toNat + 32) else c

/-- Lower-cased character sequence of a string. -/
def lowerStr (s : String) : List Char := s.data.map lowerChar

/-- `errorText.toLowerCase().includes('nonce')` from `src/src/client.ts`
line 122: case-insensitive substring test for `"nonce"` on a response
body. -/
def containsNonce (body : String) : Bool :=
  charListContains "nonce".data (lowerStr body)

/-- `canRetry` from `src/src/client.ts` lines 93-99: retry on network
error (no response), on 5xx, on 400 (bad nonce handled later in the retry
loop) and on 429. -/
def canRetry (response : Option ErrResponse) : Bool :=
  match response with
  | none => true
  | some r => decide (500 ≤ r.status) || r.status == 400 || r.status == 429

/-- At `src/src/client.ts` line 115 the call `this.canRetry(response)` is
not awaited: `canRetry` is `async`, so the call yields a `Promise`
object, and every object is truthy in JS.  Hence the guard
`if (!this.canRetry(response)) throw error` tests the negation of a
truthy value and never throws, whatever `canRetry` would have resolved
to.  This constant embeds the truthiness of that un-awaited `Promise`. -/
def promiseTruthy (_resolvesTo : Bool) : Bool := true

/-- Lines 120-125 of `src/src/client.ts`: an error whose attached
response has status 400 and whose body text has no case-insensitive
`"nonce"` substring is rethrown (fatal); any other error falls through to
the sleep-and-retry step. -/
def badNonce400Fatal (e : OpError) : Bool :=
  match e.response with
  | some r => r.status == 400 && !(containsNonce r.body)
  | none => false

/-- `Math.min` on the delay quantities, written out so that it evaluates
by kernel reduction. -/
def jsMin (a b : Nat) : Nat := if a ≤ b then a else b

/-- The error thrown at `src/src/client.ts` line 134 when the loop exits
with no recorded failure (`throw lastError || new Error(...)`). -/
def unknownRetryError : OpError :=
  { msg := "Unknown error occurred during retry", response := none }

deriving instance DecidableEq for Except

/-- Observable outcome of a `withRetry` run: how many times the wrapped
operation was invoked, the durations passed to `wait` in order, and the
returned value or the thrown error. -/
structure RetryTrace (α : Type) where
  attempts : Nat
  sleeps : List Nat
  result : Except OpError α
deriving DecidableEq, Repr

/-- The loop body of `withRetry` (`src/src/client.ts` lines 101-135).
`fuel` is the number of loop iterations left (`maxRetries - attempt`,
since the header reads `attempt = 0; attempt < maxRetries; attempt++`),
`attempt` the current index, `delay` the current backoff delay and
`lastError` the `lastError` variable.  The operation is modelled by the
outcome it would produce on each attempt index.  The first two rethrow
branches are dead in the source: `attempt === maxRetries` never holds
inside a loop bounded by `attempt < maxRetries`, and the `canRetry` guard
tests an un-awaited `Promise` (see `promiseTruthy`); both are kept to
mirror the source. -/
def withRetryAux {α : Type} (cfg : RetryConfig) (op : Nat → Except OpError α) :
    Nat → Nat → Nat → Option OpError → RetryTrace α
  | 0, attempt, _, lastError =>
      { attempts := attempt, sleeps := [],
        result := .error (lastError.getD unknownRetryError) }
  | fuel + 1, attempt, delay, _ =>
      match op attempt with
      | .ok v => { attempts := attempt + 1, sleeps := [], result := .ok v }
      | .error e =>
          if attempt == cfg.maxRetries then
            { attempts := attempt + 1, sleeps := [], result := .error e }
          else if !promiseTruthy (canRetry e.response) then
            { attempts := attempt + 1, sleeps := [], result := .error e }
          else if badNonce400Fatal e then
            { attempts := attempt + 1, sleeps := [], result := .error e }
          else
            let rest := withRetryAux cfg op fuel (attempt + 1)
              (jsMin (delay * cfg.backoffFactor) cfg.maxDelay) (some e)
            { attempts := rest.attempts, sleeps := delay :: rest.sleeps,
              result := rest.result }

/-- `withRetry` from `src/src/client.ts` lines 101-135: run the loop from
attempt 0 with the configured initial delay and no recorded failure. -/
def withRetry {α : Type} (cfg : RetryConfig) (op : Nat → Except OpError α) :
    RetryTrace α :=
  withRetryAux cfg op cfg.maxRetries 0 cfg.initialDelay none

/-- An always-failing HTTP 401 operation error, as in the repository's
test `should not retry non-retryable errors`. -/
def err401 : OpError := { msg := "Unauthorized", response := some ⟨401, ""⟩ }

/-- An always-failing HTTP 500 operation error, as in the repository's
test `should throw error after max retries exceeded`. -/
def err500 : OpError := { msg := "Always fails", response := some ⟨500, ""⟩ }

/-- C1.  The claim says an operation that always fails with HTTP 401 is
attempted exactly once, with no sleep, the failure propagating unchanged.
On the code this fails: `canRetry` classifies 401 as non-retryable
(first conjunct), but `withRetry` never consults that verdict because the
call is not awaited (line 115, see `promiseTruthy`), so under the default
configuration the 401 operation is attempted 5 times with backoff sleeps
1000, 2000, 4000, 8000, 16000 ms before the failure is rethrown (second
conjunct). -/
theorem c1_always401_retried_despite_canRetry :
    canRetry (some ⟨401, ""⟩) = false ∧
    withRetry defaultRetryConfig (fun _ => (.error err401 : Except OpError String)) =
      { attempts := 5, sleeps := [1000, 2000, 4000, 8000, 16000],
        result := .error err401 } := by
  constructor
  · rfl
  · decide

/-- C2.  The claim says `maxRetries = R` with an always-failing retryable
operation gives `R + 1` total attempts.  On the code this fails: the loop
header `attempt < maxRetries` bounds the run to `R` attempts.  With
`maxRetries = 1`, `initialDelay = 10` and an operation that always fails
with HTTP 500, the operation is attempted once (the repository's test
expects 2 calls), one sleep of 10 ms occurs, and the single observed
failure is rethrown. -/
theorem c2_maxRetries_attempts_off_by_one :
    withRetry { initialDelay := 10, maxRetries := 1, maxDelay := 30000,
                backoffFactor := 2 }
      (fun _ => (.error err500 : Except OpError String)) =
      { attempts := 1, sleeps := [10], result := .error err500 } := by
  decide

/-- C3.  The claim says that with `maxRetries ≥ N` an operation failing
with HTTP 500 on its first N attempts and succeeding on attempt N + 1
returns the success value.  On the code this fails at `N = 1`,
`maxRetries = 1`: the loop exhausts its single iteration on the failing
attempt, sleeps once, and rethrows the 500 failure — the succeeding
attempt is never made. -/
theorem c3_success_after_N_failures_not_reached :
    withRetry { initialDelay := 10, maxRetries := 1, maxDelay := 30000,
                backoffFactor := 2 }
      (fun n => if n = 0 then .error err500 else .ok "success") =
      { attempts := 1, sleeps := [10], result := .error err500 } := by
  decide

/-- The attempt counter recorded by a `withRetryAux` run never falls
below the attempt index it starts from. -/
theorem withRetryAux_attempts_ge {α : Type} (cfg : RetryConfig)
    (op : Nat → Except OpError α) :
    ∀ fuel attempt delay lastError,
      attempt ≤ (withRetryAux cfg op fuel attempt delay lastError).attempts := by
  intro fuel
  induction fuel with
  | zero => intro attempt delay lastError; simp [withRetryAux]
  | succ n ih =>
    intro attempt delay lastError
    cases hop : op attempt with
    | ok v => simp [withRetryAux, hop]
    | error e =>
      simp only [withRetryAux, hop]
      split_ifs with h1 h2 h3
      · exact Nat.le_succ attempt
      · exact Nat.le_succ attempt
      · exact Nat.le_succ attempt
      · exact Nat.le_trans (Nat.le_succ attempt)
          (ih (attempt + 1) (jsMin (delay * cfg.backoffFactor) cfg.maxDelay) (some e))

/-- With at least one loop iteration of fuel left, `withRetryAux`
invokes the operation at least once more. -/
theorem withRetryAux_attempts_ge_succ {α : Type} (cfg : RetryConfig)
    (op : Nat → Except OpError α) (fuel attempt delay : Nat)
    (lastError : Option OpError) :
    attempt + 1 ≤ (withRetryAux cfg op (fuel + 1) attempt delay lastError).attempts := by
  cases hop : op attempt with
  | ok v => simp [withRetryAux, hop]
  | error e =>
    simp only [withRetryAux, hop]
    split_ifs with h1 h2 h3
    · exact Nat.le_refl _
    · exact Nat.le_refl _
    · exact Nat.le_refl _
    · exact withRetryAux_attempts_ge cfg op fuel (attempt + 1)
        (jsMin (delay * cfg.backoffFactor) cfg.maxDelay) (some e)

/-- One loop iteration on a fatal 400 failure (no nonce indicator in the
body): the error is rethrown at once, with no sleep. -/
theorem withRetryAux_step_fatal {α : Type} (cfg : RetryConfig)
    (op : Nat → Except OpError α) (fuel attempt delay : Nat)
    (lastError : Option OpError) (e : OpError)
    (hop : op attempt = .error e)
    (hne : (attempt == cfg.maxRetries) = false)
    (hfatal : badNonce400Fatal e = true) :
    withRetryAux cfg op (fuel + 1) attempt delay lastError =
      { attempts := attempt + 1, sleeps := [], result := .error e } := by
  simp [withRetryAux, hop, hne, hfatal, promiseTruthy]

/-- One loop iteration on a retryable failure: sleep for the current
delay, then continue with the backed-off (capped) delay. -/
theorem withRetryAux_step_retry {α : Type} (cfg : RetryConfig)
    (op : Nat → Except OpError α) (fuel attempt delay : Nat)
    (lastError : Option OpError) (e : OpError)
    (hop : op attempt = .error e)
    (hne : (attempt == cfg.maxRetries) = false)
    (hfatal : badNonce400Fatal e = false) :
    withRetryAux cfg op (fuel + 1) attempt delay lastError =
      { attempts := (withRetryAux cfg op fuel (attempt + 1)
          (jsMin (delay * cfg.backoffFactor) cfg.maxDelay) (some e)).attempts,
        sleeps := delay :: (withRetryAux cfg op fuel (attempt + 1)
          (jsMin (delay * cfg.backoffFactor) cfg.maxDelay) (some e)).sleeps,
        result := (withRetryAux cfg op fuel (attempt + 1)
          (jsMin (delay * cfg.backoffFactor) cfg.maxDelay) (some e)).result } := by
  simp [withRetryAux, hop, hne, hfatal, promiseTruthy]

/-- C4.  A failure with HTTP status 400 is treated as retryable by
`withRetry` precisely when the response body contains `"nonce"`
case-insensitively: for an operation whose first attempt fails with a
400-status response, a second attempt is made (given at least two loop
iterations of budget) iff the body has the nonce indicator, and when the
indicator is absent the 400 failure is rethrown unchanged at once — one
attempt, no sleep, no retry slot consumed. -/
theorem c4_http400_retryable_iff_nonce {α : Type} (cfg : RetryConfig)
    (op : Nat → Except OpError α) (e : OpError) (body : String)
    (hR : 2 ≤ cfg.maxRetries)
    (hop : op 0 = .error e)
    (hresp : e.response = some ⟨400, body⟩) :
    (2 ≤ (withRetry cfg op).attempts ↔ containsNonce body = true) ∧
    (containsNonce body = false →
      withRetry cfg op = { attempts := 1, sleeps := [], result := .error e }) := by
  obtain ⟨m, hm⟩ : ∃ m, cfg.maxRetries = (m + 1) + 1 := ⟨cfg.maxRetries - 2, by omega⟩
  have h0 : (0 == cfg.maxRetries) = false := by
    simp only [beq_eq_false_iff_ne, ne_eq]
    omega
  have hfatal : badNonce400Fatal e = !(containsNonce body) := by
    simp [badNonce400Fatal, hresp]
  cases hc : containsNonce body with
  | false =>
    rw [hc, Bool.not_false] at hfatal
    have htrace : withRetry cfg op =
        { attempts := 1, sleeps := [], result := .error e } := by
      rw [withRetry, hm, withRetryAux_step_fatal cfg op (m + 1) 0 cfg.initialDelay none e hop
        h0 hfatal]
    refine ⟨?_, fun _ => htrace⟩
    rw [htrace]
    simp [hc]
  | true =>
    rw [hc, Bool.not_true] at hfatal
    have h2le : 2 ≤ (withRetry cfg op).attempts := by
      rw [withRetry, hm, withRetryAux_step_retry cfg op (m + 1) 0 cfg.initialDelay none e hop
        h0 hfatal]
      exact withRetryAux_attempts_ge_succ cfg op m 1
        (jsMin (cfg.initialDelay * cfg.backoffFactor) cfg.maxDelay) (some e)
    refine ⟨⟨fun _ => rfl, fun _ => h2le⟩, fun h => absurd h (by simp [hc])⟩

/-- A 400 response body carrying the ACME bad-nonce problem type. -/
def badNonceBody : String := "urn:ietf:params:acme:error:badNonce"

/-- The error thrown on a stale-nonce rejection: HTTP 400 with a
nonce-indicating body. -/
def errBadNonce : OpError :=
  { msg := "Bad nonce", response := some ⟨400, badNonceBody⟩ }

/-- A retry configuration with two loop iterations of budget. -/
def cfgTwoRetries : RetryConfig :=
  { initialDelay := 1000, maxRetries := 2, maxDelay := 30000, backoffFactor := 2 }

/-- An operation failing with a bad-nonce 400 on its first attempt and
succeeding afterwards. -/
def opBadNonceThenOk : Nat → Except OpError String :=
  fun n => if n = 0 then .error errBadNonce else .ok "ok"

/-- Witness for C4: concrete configuration and operation, the theorem's
hypotheses discharged by evaluation. -/
theorem c4_http400_retryable_iff_nonce_witness :
    (2 ≤ (withRetry cfgTwoRetries opBadNonceThenOk).attempts ↔
        containsNonce badNonceBody = true) ∧
    (containsNonce badNonceBody = false →
      withRetry cfgTwoRetries opBadNonceThenOk =
        { attempts := 1, sleeps := [], result := .error errBadNonce }) :=
  c4_http400_retryable_iff_nonce cfgTwoRetries opBadNonceThenOk errBadNonce badNonceBody
    (by decide) rfl rfl

/-! ## Error taxonomy

The repository throws plain `Error`s with fixed messages; each
constructor below names the spec's taxonomy entry for one such message:
`DirectoryIncomplete` for "Incomplete ACME directory response",
`NonceUnavailable` for "Failed to get ACME nonce",
`AuthorizationFetchFailed` for "Failed to fetch authorization: ...",
`NoDns01Challenge` for "No dns-01 challenge for ...",
`ChallengeNotificationFailed` for "Failed to respond to challenge: ...",
`PollFailed` for "Failed to poll order status",
`OrderDidNotFinalize` for "Order did not finalize or no certificate URL",
`CertificateDownloadFailed` for "Failed to download certificate". -/
inductive AcmeError where
  | DirectoryIncomplete
  | NonceUnavailable
  | AuthorizationFetchFailed
  | NoDns01Challenge
  | ChallengeNotificationFailed
  | PollFailed
  | OrderDidNotFinalize
  | CertificateDownloadFailed
deriving DecidableEq, Repr

/-- The key-authorization computation of `src/old/acmeClient.ts` line
232: `challenge.token + '.KEY_THUMBPRINT_STUB'`.  The account key the
protocol requires the value to depend on is a parameter here, but the
source expression ignores it (the source comment reads
"stub, real implementation needs JWK thumbprint"). -/
def keyAuthorization (token : String) (_accountKey : String) : String :=
  token ++ ".KEY_THUMBPRINT_STUB"

/-- C5.  The claim says the key authorization equals
`token + "." + base64url(SHA-256(JWK-thumbprint(accountKey)))`, so two
different account keys with one token must yield different strings.  On
the code this fails: the computed value is the placeholder
`token + ".KEY_THUMBPRINT_STUB"`, independent of the account key, so two
distinct keys yield the same string. -/
theorem c5_key_authorization_ignores_account_key :
    keyAuthorization "tok" "accountKeyA" = keyAuthorization "tok" "accountKeyB" ∧
    ("accountKeyA" : String) ≠ "accountKeyB" := by
  constructor
  · rfl
  · decide

/-! ## Directory resolution (`getDirectory`, `src/src/client.ts` lines 53-91) -/

/-- JS truthiness of a string-typed JSON field: falsy when absent
(`undefined`/`null`, here `none`) or the empty string. -/
def truthyStr : Option String → Bool
  | none => false
  | some s => !(s == "")

/-- The `meta` block of a directory response.  `profiles` is a JSON
object in the response; the source only uses `Object.keys` of it, so it
is embedded as its (possibly empty) list of key names, `none` when the
field is absent. -/
structure AcmeDirMeta where
  termsOfService : Option String
  website : Option String
  caaIdentities : Option (List String)
  externalAccountRequired : Option Bool
  profiles : Option (List String)
deriving DecidableEq, Repr

/-- The parsed JSON body of a directory fetch, before validation: every
field may be absent. -/
structure DirectoryResponse where
  newNonce : Option String
  newAccount : Option String
  newOrder : Option String
  revokeCert : Option String
  keyChange : Option String
  meta : Option AcmeDirMeta
deriving DecidableEq, Repr

/-- The `meta` stored on the client (`src/src/client.ts` lines 83-89):
`caaIdentities` defaulted to `[]` and `externalAccountRequired` to
`false` by `||`. -/
structure StoredDirMeta where
  termsOfService : Option String
  website : Option String
  caaIdentities : List String
  externalAccountRequired : Bool
  profiles : Option (List String)
deriving DecidableEq, Repr

/-- The `AcmeDirectory` stored on the client after a successful
`getDirectory` (`src/src/client.ts` lines 3-16 and 77-90). -/
structure AcmeDirectory where
  newNonce : String
  newAccount : String
  newOrder : String
  revokeCert : String
  keyChange : String
  meta : StoredDirMeta
deriving DecidableEq, Repr

/-- Lines 83-89 of `src/src/client.ts`: build the stored meta block from
the response's meta block. -/
def storeMeta (m : AcmeDirMeta) : StoredDirMeta :=
  { termsOfService := m.termsOfService
    website := m.website
    caaIdentities := m.caaIdentities.getD []
    externalAccountRequired := m.externalAccountRequired.getD false
    profiles := m.profiles }

/-- A meta block with every optional field absent. -/
def emptyDirMeta : AcmeDirMeta :=
  { termsOfService := none, website := none, caaIdentities := none,
    externalAccountRequired := none, profiles := none }

/-- The validation and storing part of `getDirectory`
(`src/src/client.ts` lines 66-90), applied to the parsed body of an
HTTP-ok directory fetch: reject with `DirectoryIncomplete` when any of
the five endpoint fields is falsy or `meta` is absent, otherwise store
the endpoints verbatim and the defaulted meta block.  (The `getD`
defaults in the success branch are unreachable placeholders: the guard
has established every field is present.) -/
def getDirectory (data : DirectoryResponse) : Except AcmeError AcmeDirectory :=
  if !(truthyStr data.newNonce) || !(truthyStr data.newAccount) ||
      !(truthyStr data.newOrder) || !(truthyStr data.revokeCert) ||
      !(truthyStr data.keyChange) || !(data.meta.isSome) then
    .error .DirectoryIncomplete
  else
    .ok { newNonce := data.newNonce.getD ""
          newAccount := data.newAccount.getD ""
          newOrder := data.newOrder.getD ""
          revokeCert := data.revokeCert.getD ""
          keyChange := data.keyChange.getD ""
          meta := storeMeta (data.meta.getD emptyDirMeta) }

/-- C6.  For every directory response containing all five endpoint URLs
(as non-empty strings) and a metadata block, resolution succeeds and the
five stored endpoint URLs equal the response values verbatim; for every
response missing any one of the five endpoints or the metadata block,
resolution fails with `DirectoryIncomplete`. -/
theorem c6_directory_resolution (d : DirectoryResponse) :
    (∀ u1 u2 u3 u4 u5 m,
        d.newNonce = some u1 → u1 ≠ "" →
        d.newAccount = some u2 → u2 ≠ "" →
        d.newOrder = some u3 → u3 ≠ "" →
        d.revokeCert = some u4 → u4 ≠ "" →
        d.keyChange = some u5 → u5 ≠ "" →
        d.meta = some m →
        ∃ dir, getDirectory d = .ok dir ∧ dir.newNonce = u1 ∧ dir.newAccount = u2 ∧
          dir.newOrder = u3 ∧ dir.revokeCert = u4 ∧ dir.keyChange = u5) ∧
    ((d.newNonce = none ∨ d.newAccount = none ∨ d.newOrder = none ∨
        d.revokeCert = none ∨ d.keyChange = none ∨ d.meta = none) →
      getDirectory d = .error .DirectoryIncomplete) := by
  constructor
  · intro u1 u2 u3 u4 u5 m h1 h1e h2 h2e h3 h3e h4 h4e h5 h5e hm
    refine ⟨{ newNonce := u1, newAccount := u2, newOrder := u3, revokeCert := u4,
              keyChange := u5, meta := storeMeta m }, ?_, rfl, rfl, rfl, rfl, rfl⟩
    simp [getDirectory, truthyStr, h1, h2, h3, h4, h5, hm, h1e, h2e, h3e, h4e, h5e]
  · intro h
    rcases h with h | h | h | h | h | h <;>
      simp [getDirectory, truthyStr, h]

/-- A complete directory response, as in the spec's end-to-end
scenario. -/
def dirResponseExample : DirectoryResponse :=
  { newNonce := some "https://ca/nonce"
    newAccount := some "https://ca/acct"
    newOrder := some "https://ca/order"
    revokeCert := some "https://ca/revoke"
    keyChange := some "https://ca/keychange"
    meta := some emptyDirMeta }

/-- Witness for C6: the success half applied to a concrete complete
directory response. -/
theorem c6_directory_resolution_witness :
    ∃ dir, getDirectory dirResponseExample = .ok dir ∧
      dir.newNonce = "https://ca/nonce" ∧ dir.newAccount = "https://ca/acct" ∧
      dir.newOrder = "https://ca/order" ∧ dir.revokeCert = "https://ca/revoke" ∧
      dir.keyChange = "https://ca/keychange" :=
  (c6_directory_resolution dirResponseExample).1 "https://ca/nonce" "https://ca/acct"
    "https://ca/order" "https://ca/revoke" "https://ca/keychange" emptyDirMeta
    rfl (by decide) rfl (by decide) rfl (by decide) rfl (by decide) rfl (by decide) rfl

/-! ## Nonce fetching (`getNonce`, `src/src/client.ts` lines 137-142) -/

/-- The response to the HEAD request against `newNonce`: its HTTP status
(which `getNonce` never consults) and its header list. -/
structure NonceResponse where
  status : Nat
  headers : List (String × String)
deriving DecidableEq, Repr

/-- `Headers.get` of the Fetch API: case-insensitive lookup of the first
header with the given name, `null` when none matches. -/
def headersGet (headers : List (String × String)) (name : String) : Option String :=
  (headers.find? (fun p => lowerStr p.1 == lowerStr name)).map (fun p => p.2)

/-- JS `a || b` on string-or-null values: `b` when `a` is falsy (absent
or empty). -/
def jsOrStr (a b : Option String) : Option String :=
  match a with
  | some s => if s == "" then b else some s
  | none => b

/-- `getNonce` from `src/src/client.ts` lines 137-142:
`nonceRes.headers.get('Replay-Nonce') || nonceRes.headers.get('replay-nonce')`,
then `if (!nonce) throw`; the HTTP status is never examined. -/
def getNonce (res : NonceResponse) : Except AcmeError String :=
  match jsOrStr (headersGet res.headers "Replay-Nonce")
      (headersGet res.headers "replay-nonce") with
  | none => .error .NonceUnavailable
  | some nonce => if nonce == "" then .error .NonceUnavailable else .ok nonce

/-- C8, counterexample.  The claim says `getNonce` fails with
`NonceUnavailable` only if the replay-nonce header is absent.  On a
response whose `Replay-Nonce` header is present with the empty value,
the lookup succeeds (`some ""`) yet `getNonce` fails, because the empty
string is falsy in the `if (!nonce)` guard. -/
theorem c8_counterexample_present_empty_header :
    headersGet [("Replay-Nonce", "")] "Replay-Nonce" = some "" ∧
    getNonce { status := 200, headers := [("Replay-Nonce", "")] } =
      .error .NonceUnavailable := by
  decide

/-- The two lookups at line 139 coincide: header-name matching is
case-insensitive, and the two spellings lower-case identically. -/
theorem headersGet_replay_nonce_eq (headers : List (String × String)) :
    headersGet headers "Replay-Nonce" = headersGet headers "replay-nonce" := by
  have h : lowerStr "Replay-Nonce" = lowerStr "replay-nonce" := by decide
  simp only [headersGet, h]

/-- C8, amended.  `getNonce` fails with `NonceUnavailable` iff the
replay-nonce header (matched case-insensitively) is absent or its value
is the empty string, regardless of the HTTP status; when the first
matching header has a non-empty value, that value is returned. -/
theorem c8_nonce_header (status : Nat) (headers : List (String × String)) :
    (∀ v, headersGet headers "Replay-Nonce" = some v → v ≠ "" →
        getNonce { status := status, headers := headers } = .ok v) ∧
    (headersGet headers "Replay-Nonce" = none →
        getNonce { status := status, headers := headers } = .error .NonceUnavailable) ∧
    (headersGet headers "Replay-Nonce" = some "" →
        getNonce { status := status, headers := headers } = .error .NonceUnavailable) := by
  refine ⟨?_, ?_, ?_⟩
  · intro v hv hne
    have hv2 := (headersGet_replay_nonce_eq headers).symm.trans hv
    simp [getNonce, jsOrStr, hv, hv2, hne]
  · intro hnone
    have hn2 := (headersGet_replay_nonce_eq headers).symm.trans hnone
    simp [getNonce, jsOrStr, hnone, hn2]
  · intro hempty
    have he2 := (headersGet_replay_nonce_eq headers).symm.trans hempty
    simp [getNonce, jsOrStr, hempty, he2]

/-- Witness for C8: a non-success HTTP status and an upper-cased header
name still yield the header's value. -/
theorem c8_nonce_header_witness :
    getNonce { status := 500, headers := [("REPLAY-NONCE", "abc123")] } = .ok "abc123" :=
  (c8_nonce_header 500 [("REPLAY-NONCE", "abc123")]).1 "abc123" (by decide) (by decide)

/-! ## Order / authorization / challenge entities (`src/old/acmeClient.ts` lines 17-42) -/

/-- An ACME identifier: `{ type, value }`. -/
structure AcmeIdentifier where
  type : String
  value : String
deriving DecidableEq, Repr

/-- An ACME challenge: `{ type, status, url, token }`. -/
structure AcmeChallenge where
  type : String
  status : String
  url : String
  token : String
deriving DecidableEq, Repr

/-- An ACME authorization: `{ status, identifier, challenges }`. -/
structure AcmeAuthorization where
  status : String
  identifier : AcmeIdentifier
  challenges : List AcmeChallenge
deriving DecidableEq, Repr

/-- An ACME order: `{ status, identifiers, authorizations, finalize,
certificate? }`. -/
structure AcmeOrder where
  status : String
  identifiers : List AcmeIdentifier
  authorizations : List String
  finalize : String
  certificate : Option String
deriving DecidableEq, Repr

/-- Observable outcome of a `completeDns01Challenges` run: the arguments
of each DNS provider `setRecord` call (domain, record name, value) in
order, the challenge URLs POSTed to (notification attempts, successful
or not) in order, and the returned list of completed authorization URLs
or the thrown error. -/
structure Dns01Trace where
  dnsCalls : List (String × String × String)
  notifications : List String
  result : Except AcmeError (List String)
deriving DecidableEq, Repr

/-- `completeDns01Challenges` from `src/old/acmeClient.ts` lines
215-242, as a function of the order's authorization URL list.  The HTTP
world is an environment: `fetchAuthz` gives the parsed body of the
authorization fetch (`none` for a non-ok response, which throws
"Failed to fetch authorization"), and `notifyOk` tells whether the
empty-payload signed POST of `respondToChallenge` (lines 247-284)
succeeds (a non-ok response throws "Failed to respond to challenge").
An authorization already `valid` is recorded and skipped; otherwise the
first dns-01 challenge is selected (else "No dns-01 challenge" is
thrown), the key authorization is computed by `keyAuthorization`, the
DNS record `_acme-challenge.<value>` is set via the provider, and the
challenge URL is notified; the `setRecord` call is modelled as always
resolving, as the in-scope DNS providers' promises do. -/
def completeDns01Challenges (fetchAuthz : String → Option AcmeAuthorization)
    (notifyOk : String → Bool) (accountKey : String) :
    List String → Dns01Trace
  | [] => { dnsCalls := [], notifications := [], result := .ok [] }
  | url :: rest =>
    match fetchAuthz url with
    | none =>
        { dnsCalls := [], notifications := [],
          result := .error .AuthorizationFetchFailed }
    | some authz =>
      if authz.status == "valid" then
        let t := completeDns01Challenges fetchAuthz notifyOk accountKey rest
        { dnsCalls := t.dnsCalls, notifications := t.notifications,
          result := t.result.map (fun l => url :: l) }
      else
        match authz.challenges.find? (fun c => c.type == "dns-01") with
        | none =>
            { dnsCalls := [], notifications := [],
              result := .error .NoDns01Challenge }
        | some ch =>
          let keyAuth := keyAuthorization ch.token accountKey
          let recordName := "_acme-challenge." ++ authz.identifier.value
          if notifyOk ch.url then
            let t := completeDns01Challenges fetchAuthz notifyOk accountKey rest
            { dnsCalls := (authz.identifier.value, recordName, keyAuth) :: t.dnsCalls,
              notifications := ch.url :: t.notifications,
              result := t.result.map (fun l => url :: l) }
          else
            { dnsCalls := [(authz.identifier.value, recordName, keyAuth)],
              notifications := [ch.url],
              result := .error .ChallengeNotificationFailed }

/-- C9.  An authorization that is fetched with status `valid` contributes
no DNS provider call and no challenge-notification POST — the trace of
processing it at the head of the list has exactly the DNS calls and
notifications of the remaining list — yet its URL is included in the
returned list of completed authorization URLs whenever the run
returns. -/
theorem c9_valid_authorization_skipped (fetchAuthz : String → Option AcmeAuthorization)
    (notifyOk : String → Bool) (accountKey : String) (u : String) (rest : List String)
    (a : AcmeAuthorization)
    (hfetch : fetchAuthz u = some a) (hvalid : a.status = "valid") :
    (completeDns01Challenges fetchAuthz notifyOk accountKey (u :: rest)).dnsCalls =
      (completeDns01Challenges fetchAuthz notifyOk accountKey rest).dnsCalls ∧
    (completeDns01Challenges fetchAuthz notifyOk accountKey (u :: rest)).notifications =
      (completeDns01Challenges fetchAuthz notifyOk accountKey rest).notifications ∧
    ∀ l, (completeDns01Challenges fetchAuthz notifyOk accountKey rest).result = .ok l →
      (completeDns01Challenges fetchAuthz notifyOk accountKey (u :: rest)).result =
        .ok (u :: l) := by
  refine ⟨?_, ?_, ?_⟩ <;>
    simp [completeDns01Challenges, hfetch, hvalid]
  intro l hl
  simp [hl, Except.map]

/-- An authorization that is already valid. -/
def validAuthzEx : AcmeAuthorization :=
  { status := "valid", identifier := { type := "dns", value := "example.com" },
    challenges := [] }

/-- Witness for C9: a one-authorization order whose authorization is
already valid yields no DNS call, no notification, and the
authorization's URL in the result. -/
theorem c9_valid_authorization_skipped_witness :
    (completeDns01Challenges (fun _ => some validAuthzEx) (fun _ => true) "k"
        ["https://ca/authz/1"]).dnsCalls = [] ∧
    (completeDns01Challenges (fun _ => some validAuthzEx) (fun _ => true) "k"
        ["https://ca/authz/1"]).notifications = [] ∧
    (completeDns01Challenges (fun _ => some validAuthzEx) (fun _ => true) "k"
        ["https://ca/authz/1"]).result = .ok ["https://ca/authz/1"] :=
  let t := c9_valid_authorization_skipped (fun _ => some validAuthzEx) (fun _ => true)
    "k" "https://ca/authz/1" [] validAuthzEx rfl rfl
  ⟨t.1.trans rfl, t.2.1.trans rfl, t.2.2 [] rfl⟩

/-! ## Order finalization polling (`finalizeOrder`, `src/old/acmeClient.ts` lines 333-348) -/

/-- The polling loop of `finalizeOrder`:
`while (finalizedOrder.status !== 'valid' && attempts-- > 0)`.  `fuel` is
the remaining value of the `attempts` counter, `k` the index of the next
re-fetch, `cur` the most recently parsed order.  `poll k` is the parsed
body of the k-th re-fetch of the finalize URL, `none` for a non-ok
response (which throws "Failed to poll order status"). -/
def finalizePollAux (poll : Nat → Option AcmeOrder) :
    Nat → Nat → AcmeOrder → Except AcmeError AcmeOrder
  | fuel, k, cur =>
    if cur.status == "valid" then .ok cur
    else
      match fuel with
      | 0 => .ok cur
      | fuel' + 1 =>
        match poll k with
        | none => .error .PollFailed
        | some next => finalizePollAux poll fuel' (k + 1) next

/-- Steps 6-7 of `finalizeOrder` (`src/old/acmeClient.ts` lines
333-348), from the parsed body `initial` of the successful finalize
POST: poll with an attempt budget of 10, then
`if (!finalizedOrder.certificate) throw` ("Order did not finalize or no
certificate URL" — JS truthiness, so an absent or empty `certificate`
both fail), then fetch the certificate URL (`fetchCert` giving the
response body, `none` for non-ok) and return its body. -/
def finalizeOrderPoll (initial : AcmeOrder) (poll : Nat → Option AcmeOrder)
    (fetchCert : String → Option String) : Except AcmeError String :=
  match finalizePollAux poll 10 0 initial with
  | .error e => .error e
  | .ok finalOrder =>
    match finalOrder.certificate with
    | none => .error .OrderDidNotFinalize
    | some c =>
      if c == "" then .error .OrderDidNotFinalize
      else
        match fetchCert c with
        | none => .error .CertificateDownloadFailed
        | some body => .ok body

/-- If the polled order stream first reaches `valid` at index K within
the remaining budget, the loop stops there and returns that order. -/
theorem finalizePollAux_reaches_valid (poll : Nat → Option AcmeOrder)
    (o : Nat → AcmeOrder) (hpoll : ∀ k, poll k = some (o (k + 1))) :
    ∀ fuel start K, start ≤ K → K ≤ start + fuel →
      (∀ i, start ≤ i → i < K → (o i).status ≠ "valid") →
      (o K).status = "valid" →
      finalizePollAux poll fuel start (o start) = .ok (o K) := by
  intro fuel
  induction fuel with
  | zero =>
    intro start K h1 h2 h3 h4
    have hK : K = start := by omega
    subst hK
    simp [finalizePollAux, h4]
  | succ n ih =>
    intro start K h1 h2 h3 h4
    by_cases hs : K = start
    · subst hs
      simp [finalizePollAux, h4]
    · have hlt : start < K := by omega
      have hnv : (o start).status ≠ "valid" := h3 start (Nat.le_refl start) hlt
      rw [finalizePollAux]
      rw [if_neg (by simpa using hnv), hpoll start]
      exact ih (start + 1) K (by omega) (by omega)
        (fun i hi1 hi2 => h3 i (by omega) hi2) h4

/-- If no polled order within the budget is `valid`, the loop consumes
all its fuel and returns the last polled order. -/
theorem finalizePollAux_exhaust (poll : Nat → Option AcmeOrder)
    (o : Nat → AcmeOrder) (hpoll : ∀ k, poll k = some (o (k + 1))) :
    ∀ fuel start, (∀ i, start ≤ i → i ≤ start + fuel → (o i).status ≠ "valid") →
      finalizePollAux poll fuel start (o start) = .ok (o (start + fuel)) := by
  intro fuel
  induction fuel with
  | zero =>
    intro start h
    have hnv : (o start).status ≠ "valid" := h start (Nat.le_refl start) (by omega)
    rw [finalizePollAux]
    rw [if_neg (by simpa using hnv), Nat.add_zero]
  | succ n ih =>
    intro start h
    have hnv : (o start).status ≠ "valid" := h start (Nat.le_refl start) (by omega)
    rw [finalizePollAux]
    rw [if_neg (by simpa using hnv), hpoll start]
    show finalizePollAux poll n (start + 1) (o (start + 1)) =
      Except.ok (o (start + (n + 1)))
    rw [ih (start + 1) (fun i hi1 hi2 => h i (by omega) (by omega))]
    have harith : start + 1 + n = start + (n + 1) := by omega
    rw [harith]

/-- C7.  With `o 0` the body of the finalize POST and `o (k+1)` the body
of the k-th successful poll: if the order first reaches `valid` at poll
K ≤ 10 with a non-empty certificate URL, `finalize` returns the body
fetched from that URL; if no order within the 10-poll budget is `valid`
(and, per the data model, none of them carries a certificate URL),
`finalize` fails with `OrderDidNotFinalize`. -/
theorem c7_finalize_polling (o : Nat → AcmeOrder) (poll : Nat → Option AcmeOrder)
    (fetchCert : String → Option String)
    (hpoll : ∀ k, poll k = some (o (k + 1))) :
    (∀ K c body, K ≤ 10 →
        (∀ i, i < K → (o i).status ≠ "valid") →
        (o K).status = "valid" →
        (o K).certificate = some c → c ≠ "" →
        fetchCert c = some body →
        finalizeOrderPoll (o 0) poll fetchCert = .ok body) ∧
    ((∀ i, i ≤ 10 → (o i).status ≠ "valid" ∧ (o i).certificate = none) →
      finalizeOrderPoll (o 0) poll fetchCert = .error .OrderDidNotFinalize) := by
  constructor
  · intro K c body hK hbefore hvalid hcert hcne hfetch
    have h := finalizePollAux_reaches_valid poll o hpoll 10 0 K (Nat.zero_le K)
      (by omega) (fun i _ hi => hbefore i hi) hvalid
    simp [finalizeOrderPoll, h, hcert, hcne, hfetch]
  · intro hnv
    have h := finalizePollAux_exhaust poll o hpoll 10 0
      (fun i h1 h2 => (hnv i (by omega)).1)
    simp [finalizeOrderPoll, h, (hnv 10 (by omega)).2]

/-- A pending order with no certificate URL. -/
def orderPendingEx : AcmeOrder :=
  { status := "pending", identifiers := [{ type := "dns", value := "example.com" }],
    authorizations := ["https://ca/authz/1"], finalize := "https://ca/order/1/finalize",
    certificate := none }

/-- The same order once valid, carrying its certificate URL. -/
def orderValidEx : AcmeOrder :=
  { status := "valid", identifiers := [{ type := "dns", value := "example.com" }],
    authorizations := ["https://ca/authz/1"], finalize := "https://ca/order/1/finalize",
    certificate := some "https://ca/cert/1" }

/-- An order stream that becomes valid on the second poll. -/
def orderStreamEx : Nat → AcmeOrder := fun i => if i < 2 then orderPendingEx else orderValidEx

/-- Polls following `orderStreamEx`. -/
def pollStreamEx : Nat → Option AcmeOrder := fun k => some (orderStreamEx (k + 1))

/-- A certificate fetch returning a fixed PEM chain. -/
def fetchCertEx : String → Option String := fun _ => some "PEM-CHAIN"

/-- Witness for C7: an order valid on the second poll yields the fetched
certificate body. -/
theorem c7_finalize_polling_witness :
    finalizeOrderPoll (orderStreamEx 0) pollStreamEx fetchCertEx = .ok "PEM-CHAIN" :=
  (c7_finalize_polling orderStreamEx pollStreamEx fetchCertEx (fun _ => rfl)).1
    2 "https://ca/cert/1" "PEM-CHAIN" (by omega) (by decide) (by decide) (by decide)
    (by decide) rfl

/-! ## Account creation (`createAccount`, `src/src/client.ts` lines 165-227)

The source generates the ES256 key pair and builds the account payload
at lines 169-177, before entering `withRetry`; the retried closure
(lines 179-195) captures both, fetches a nonce via `getNonce` once per
attempt, signs the captured payload with the captured private key, and
POSTs the envelope.  Key pairs are identified by the index of the
`generateKeyPair` draw that produced them; since exactly one draw
happens (before the loop), every envelope embeds and signs with draw
0. -/

/-- The account-creation payload of lines 174-177:
`{ termsOfServiceAgreed: true, contact: ['mailto:' + email] }`. -/
structure AccountPayload where
  termsOfServiceAgreed : Bool
  contact : List String
deriving DecidableEq, Repr

/-- Lines 174-177: the payload built once from the contact email. -/
def accountPayload (email : String) : AccountPayload :=
  { termsOfServiceAgreed := true, contact := ["mailto:" ++ email] }

/-- The protected header of lines 180-185: algorithm, the nonce fetched
inside the attempt, the target URL, and the embedded public JWK
(identified by its key-pair draw index). -/
structure ProtectedHeader where
  alg : String
  nonce : String
  url : String
  jwkKeyId : Nat
deriving DecidableEq, Repr

/-- A signed flattened envelope: header, payload and the private key
(by draw index) that signed it. -/
structure JwsEnvelope where
  header : ProtectedHeader
  payload : AccountPayload
  signedWith : Nat
deriving DecidableEq, Repr

/-- The POST response the attempt unwraps: `ok`, status, readable body,
and the optional `Location` header. -/
structure PostResponse where
  ok : Bool
  status : Nat
  body : String
  location : Option String
deriving DecidableEq, Repr

/-- The effect oracles of one `createAccount` call: the `newAccount` URL
from the resolved directory, the result of the i-th `getNonce` call
(`none` when the nonce fetch throws), and the response to the POST of
each attempt's envelope. -/
structure CreateAccountEnv where
  newAccountUrl : String
  nonces : Nat → Option String
  post : Nat → JwsEnvelope → PostResponse

/-- The envelope built during attempt `attempt` of `createAccount`
(lines 180-190): the closure captures the key pair of draw 0 and the
payload built before `withRetry`, and calls `getNonce` inside the
attempt, so the envelope for attempt i carries nonce draw i; `none` when
that nonce fetch fails and no envelope is built. -/
def createAccountEnvelope (env : CreateAccountEnv) (email : String)
    (attempt : Nat) : Option JwsEnvelope :=
  (env.nonces attempt).map fun n =>
    { header := { alg := "ES256", nonce := n, url := env.newAccountUrl, jwkKeyId := 0 }
      payload := accountPayload email
      signedWith := 0 }

/-- The retried closure of `createAccount` (lines 179-226): build the
envelope (rethrowing the nonce failure), POST it, throw on a non-ok
response ("Failed to create ACME account...", no `response` attached to
the thrown error in this source version) or on a missing `Location`
("No account URL returned by ACME server."), else return the account
URL with key-pair draw 0. -/
def createAccountOp (env : CreateAccountEnv) (email : String) (attempt : Nat) :
    Except OpError (String × Nat) :=
  match createAccountEnvelope env email attempt with
  | none => .error { msg := "Failed to get ACME nonce", response := none }
  | some jws =>
    let res := env.post attempt jws
    if !res.ok then
      .error { msg := "Failed to create ACME account", response := none }
    else
      match res.location with
      | none => .error { msg := "No account URL returned by ACME server.", response := none }
      | some loc => .ok (loc, 0)

/-- `createAccount` (lines 165-227): the closure wrapped by
`withRetry`. -/
def createAccount (cfg : RetryConfig) (env : CreateAccountEnv) (email : String) :
    RetryTrace (String × Nat) :=
  withRetry cfg (createAccountOp env email)

/-- C10.  Any two attempts of one `createAccount` call sign the same
payload — the one built from the email before the retry loop — and
embed and sign with the same single key pair (draw 0, the only
`generateKeyPair` call); each attempt's envelope carries the nonce
fetched inside that attempt (draw i for attempt i), so two distinct
attempts never reuse a previously fetched nonce value, provided the
nonce source never issues one value twice. -/
theorem c10_single_keypair_fresh_nonce_per_attempt (env : CreateAccountEnv)
    (email : String) (i j : Nat) (ei ej : JwsEnvelope)
    (hi : createAccountEnvelope env email i = some ei)
    (hj : createAccountEnvelope env email j = some ej)
    (hij : i ≠ j)
    (hfresh : ∀ a b s, env.nonces a = some s → env.nonces b = some s → a = b) :
    ei.payload = accountPayload email ∧ ej.payload = ei.payload ∧
    ei.header.jwkKeyId = 0 ∧ ej.header.jwkKeyId = 0 ∧
    ei.signedWith = 0 ∧ ej.signedWith = 0 ∧
    env.nonces i = some ei.header.nonce ∧ env.nonces j = some ej.header.nonce ∧
    ei.header.nonce ≠ ej.header.nonce := by
  simp only [createAccountEnvelope] at hi hj
  cases hni : env.nonces i with
  | none => rw [hni] at hi; simp at hi
  | some ni =>
    cases hnj : env.nonces j with
    | none => rw [hnj] at hj; simp at hj
    | some nj =>
      rw [hni] at hi
      rw [hnj] at hj
      simp only [Option.map_some', Option.some.injEq] at hi hj
      subst hi
      subst hj
      refine ⟨rfl, rfl, rfl, rfl, rfl, rfl, rfl, rfl, ?_⟩
      intro hcontra
      simp only at hcontra
      exact hij (hfresh i j ni hni (by rw [hnj, hcontra]))

/-- A nonce source issuing pairwise distinct values (draw n is the
string of n repetitions of `a`). -/
def nonceStreamEx : Nat → Option String :=
  fun n => some (String.mk (List.replicate n 'a'))

/-- `nonceStreamEx` never issues the same value twice. -/
theorem nonceStreamEx_fresh :
    ∀ a b s, nonceStreamEx a = some s → nonceStreamEx b = some s → a = b := by
  intro a b s h1 h2
  simp only [nonceStreamEx, Option.some.injEq] at h1 h2
  have h := h1.trans h2.symm
  have hlen := congrArg (fun t => t.data.length) h
  simpa using hlen

/-- A concrete `createAccount` environment over `nonceStreamEx`. -/
def createAccountEnvEx : CreateAccountEnv :=
  { newAccountUrl := "https://ca/acct"
    nonces := nonceStreamEx
    post := fun _ _ =>
      { ok := true, status := 201, body := "", location := some "https://ca/acct/1" } }

/-- The envelope of attempt 1 in `createAccountEnvEx`. -/
def envelopeEx1 : JwsEnvelope :=
  { header := { alg := "ES256", nonce := "a", url := "https://ca/acct", jwkKeyId := 0 }
    payload := accountPayload "a@b.com"
    signedWith := 0 }

/-- The envelope of attempt 2 in `createAccountEnvEx`. -/
def envelopeEx2 : JwsEnvelope :=
  { header := { alg := "ES256", nonce := "aa", url := "https://ca/acct", jwkKeyId := 0 }
    payload := accountPayload "a@b.com"
    signedWith := 0 }

/-- Witness for C10: attempts 1 and 2 of a concrete environment share
payload and key pair but carry distinct nonces. -/
theorem c10_single_keypair_fresh_nonce_per_attempt_witness :
    envelopeEx1.payload = accountPayload "a@b.com" ∧
    envelopeEx2.payload = envelopeEx1.payload ∧
    envelopeEx1.header.jwkKeyId = 0 ∧ envelopeEx2.header.jwkKeyId = 0 ∧
    envelopeEx1.signedWith = 0 ∧ envelopeEx2.signedWith = 0 ∧
    createAccountEnvEx.nonces 1 = some envelopeEx1.header.nonce ∧
    createAccountEnvEx.nonces 2 = some envelopeEx2.header.nonce ∧
    envelopeEx1.header.nonce ≠ envelopeEx2.header.nonce :=
  c10_single_keypair_fresh_nonce_per_attempt createAccountEnvEx "a@b.com" 1 2
    envelopeEx1 envelopeEx2 (by decide) (by decide) (by decide) nonceStreamEx_fresh
